import Mathlib

/-!
Shallow embedding of the `secfetch` middleware (Fetch Metadata based
cross-origin protection for HTTP handlers).

The embedded code:
* `allowed` — the decision predicate reading the `sec-fetch-site` and
  `sec-fetch-mode` headers and the HTTP method (src/secfetch.go, `allowed`);
* `ProtectHandler` — the enforcing wrapper: on deny it writes status 403 and
  the message `"Invalid resource access\n"` and returns without calling the
  wrapped handler (src/secfetch.go, `ProtectHandler`);
* `ProtectHandlerLogOnly` — the log-only wrapper: on deny it calls the
  request logger once and still forwards to the wrapped handler
  (src/secfetch.go, `ProtectHandlerLogOnly`).

HTTP requests are modelled as a structure carrying a header list, the method
and further fields (url, body) that the middleware never reads.  Header
lookup follows Go's `net/http` / `net/textproto`: `Header.Get` canonicalizes
the key (`CanonicalMIMEHeaderKey`) and returns the first stored value, or the
empty string when the header is absent.  Side effects of the wrappers are
made explicit: a wrapper returns the final response together with the list of
collaborator calls it performed (`Event.serveHTTP` for invoking the wrapped
handler, `Event.logRequest` for the logging collaborator).
-/

namespace SecFetch

/-- Go `net/textproto` `validHeaderFieldByte`: the token bytes allowed in a
header field name (ASCII letters and digits plus the RFC 7230 token specials,
listed here by code point). -/
def validHeaderFieldByte (c : Char) : Bool :=
  c.isAlphanum || c.toNat == 33 || c.toNat == 35 || c.toNat == 36 ||
  c.toNat == 37 || c.toNat == 38 || c.toNat == 39 || c.toNat == 42 ||
  c.toNat == 43 || c.toNat == 45 || c.toNat == 46 || c.toNat == 94 ||
  c.toNat == 95 || c.toNat == 96 || c.toNat == 124 || c.toNat == 126

/-- The canonicalization loop of Go `textproto.CanonicalMIMEHeaderKey`:
uppercase a letter that starts a word, lowercase the rest; words are
separated by the hyphen. -/
def canonChars : Bool → List Char → List Char
  | _, [] => []
  | upper, c :: rest =>
    let c2 := if upper && c.isLower then c.toUpper
              else if !upper && c.isUpper then c.toLower
              else c
    c2 :: canonChars (c2 == '-') rest

/-- Go `textproto.CanonicalMIMEHeaderKey`: canonicalize a header key
(e.g. `"sec-fetch-site"` becomes `"Sec-Fetch-Site"`); a key containing an
invalid byte is returned unchanged. -/
def canonicalMIMEHeaderKey (s : String) : String :=
  if s.data.all validHeaderFieldByte then String.mk (canonChars true s.data)
  else s

/-- An HTTP request as the middleware sees it: Go `*http.Request`.  Headers
are a list of (canonical key, value) pairs; `url` and `body` stand for all
the request fields the middleware never reads. -/
structure Request where
  headers : List (String × String)
  method : String
  url : String
  body : String
deriving DecidableEq

/-- Go `http.Header.Get`: canonicalize the key, return the first value
stored under it, or the empty string when it is absent. -/
def headerGet (hs : List (String × String)) (key : String) : String :=
  match hs.find? (fun p => p.1 == canonicalMIMEHeaderKey key) with
  | some p => p.2
  | none => ""

/-- src/secfetch.go `allowed`: allow when `sec-fetch-site` is missing,
`"none"`, `"same-site"` or `"same-origin"`; otherwise allow only a `GET`
whose `sec-fetch-mode` is `"navigate"`; otherwise deny. -/
def allowed (r : Request) : Bool :=
  let site := headerGet r.headers "sec-fetch-site"
  let mode := headerGet r.headers "sec-fetch-mode"
  if site = "" ∨ site = "none" ∨ site = "same-site" ∨ site = "same-origin" then
    true
  else if mode = "navigate" ∧ r.method = "GET" then
    true
  else
    false

/-- The state of a Go `http.ResponseWriter` / `httptest.ResponseRecorder`:
the status code and the accumulated body. -/
structure Response where
  status : Nat
  body : String
deriving DecidableEq

/-- A downstream HTTP handler: Go `http.Handler.ServeHTTP`, as a function
from the request and the current response state to the response state it
leaves behind. -/
abbrev Handler := Request → Response → Response

/-- One collaborator call a wrapper performs: invoking the wrapped handler
(`serveHTTP`) or the logging collaborator (`logRequest`), each with the
request it received. -/
inductive Event where
  | logRequest (r : Request)
  | serveHTTP (r : Request)
deriving DecidableEq

/-- Whether an event is a call to the logging collaborator. -/
def Event.isLog : Event → Bool
  | .logRequest _ => true
  | .serveHTTP _ => false

/-- How many of the events are calls to the logging collaborator
(`RequestLogger.LogRequest`). -/
def logCalls (es : List Event) : Nat := es.countP Event.isLog

/-- Go `w.WriteHeader(code)`: set the response status. -/
def writeHeader (w : Response) (code : Nat) : Response :=
  { w with status := code }

/-- Go `fmt.Fprintln(w, s)`: append `s` and a newline to the response body. -/
def fprintln (w : Response) (s : String) : Response :=
  { w with body := w.body ++ (s ++ "\n") }

/-- Go `http.StatusForbidden`. -/
def statusForbidden : Nat := 403

/-- src/secfetch.go `ProtectHandler`: if the request is not allowed, write
status 403 and the line `"Invalid resource access"` and return without
invoking `h`; otherwise invoke `h` on the untouched request and response.
The second component lists the collaborator calls performed. -/
def ProtectHandler (h : Handler) : Request → Response → Response × List Event :=
  fun r w =>
    if ¬ allowed r then
      (fprintln (writeHeader w statusForbidden) "Invalid resource access", [])
    else
      (h r w, [Event.serveHTTP r])

/-- src/secfetch.go `ProtectHandlerLogOnly`: if the request is not allowed,
call the logging collaborator with it; in every case invoke `h` on the
untouched request and response. -/
def ProtectHandlerLogOnly (h : Handler) : Request → Response → Response × List Event :=
  fun r w =>
    let pre : List Event := if ¬ allowed r then [Event.logRequest r] else []
    (h r w, pre ++ [Event.serveHTTP r])

/-- ASCII lowercasing of one character (used only to state case-sensitivity
of the header matching). -/
def lowerChar (c : Char) : Char := if c.isUpper then c.toLower else c

/-- ASCII lowercasing of a string (used only to state case-sensitivity of
the header matching). -/
def lowerString (s : String) : String := String.mk (s.data.map lowerChar)

/-! Concrete requests and collaborators used by the witnesses. -/

/-- A cross-site CORS POST: the typical CSRF vector. -/
def reqCrossCors : Request :=
  { headers := [("Sec-Fetch-Site", "cross-site"), ("Sec-Fetch-Mode", "cors")],
    method := "POST", url := "/", body := "body" }

/-- A same-site websocket request. -/
def reqSameSite : Request :=
  { headers := [("Sec-Fetch-Site", "same-site"), ("Sec-Fetch-Mode", "websocket")],
    method := "DELETE", url := "/", body := "" }

/-- A cross-site GET navigation (following a link). -/
def reqCrossNavGet : Request :=
  { headers := [("Sec-Fetch-Site", "cross-site"), ("Sec-Fetch-Mode", "navigate")],
    method := "GET", url := "/", body := "" }

/-- A cross-site HEAD navigation. -/
def reqCrossNavHead : Request :=
  { headers := [("Sec-Fetch-Site", "cross-site"), ("Sec-Fetch-Mode", "navigate")],
    method := "HEAD", url := "/", body := "" }

/-- A request carrying no Fetch Metadata headers at all. -/
def reqNoFetchMetadata : Request :=
  { headers := [("Content-Type", "text/html")], method := "POST", url := "/", body := "b" }

/-- A same-origin POST. -/
def reqSameOrigin : Request :=
  { headers := [("Sec-Fetch-Site", "same-origin")], method := "POST", url := "/", body := "d" }

/-- A request whose sec-fetch-site differs from "none" only in letter case. -/
def reqNoneCaps : Request :=
  { headers := [("Sec-Fetch-Site", "None")], method := "POST", url := "/", body := "" }

/-- Like `reqCrossCors` but with a different url, body and an extra header:
it agrees with `reqCrossCors` on the triple the predicate reads. -/
def reqCrossCorsVariant : Request :=
  { headers := [("Sec-Fetch-Site", "cross-site"), ("Sec-Fetch-Mode", "cors"),
                ("X-Extra", "1")],
    method := "POST", url := "/other", body := "different" }

/-- A concrete downstream handler: sets status 200 and echoes the request
body into the response. -/
def echoHandler : Handler :=
  fun r w => { status := 200, body := w.body ++ r.body }

/-- A fresh response recorder. -/
def emptyResponse : Response := { status := 200, body := "" }

/-- `allowed` unfolded: the decision as one expression over the site header,
the mode header and the method. -/
theorem allowed_def (r : Request) :
    allowed r =
      if headerGet r.headers "sec-fetch-site" = "" ∨
         headerGet r.headers "sec-fetch-site" = "none" ∨
         headerGet r.headers "sec-fetch-site" = "same-site" ∨
         headerGet r.headers "sec-fetch-site" = "same-origin" then true
      else if headerGet r.headers "sec-fetch-mode" = "navigate" ∧ r.method = "GET" then
        true
      else false := rfl

/-- C1: for every request whose sec-fetch-site header value is not one of
"", "none", "same-site", "same-origin", and for which it is not the case
that the sec-fetch-mode header equals "navigate" and the method equals
"GET", the decision predicate `allowed` returns deny (false); in particular
unrecognized or missing mode values are treated as not-navigate and lead to
deny. -/
theorem allowed_deny_cross_site_non_navigate_get (r : Request)
    (h1 : headerGet r.headers "sec-fetch-site" ≠ "")
    (h2 : headerGet r.headers "sec-fetch-site" ≠ "none")
    (h3 : headerGet r.headers "sec-fetch-site" ≠ "same-site")
    (h4 : headerGet r.headers "sec-fetch-site" ≠ "same-origin")
    (h5 : ¬ (headerGet r.headers "sec-fetch-mode" = "navigate" ∧ r.method = "GET")) :
    allowed r = false := by
  have hsite : ¬ (headerGet r.headers "sec-fetch-site" = "" ∨
      headerGet r.headers "sec-fetch-site" = "none" ∨
      headerGet r.headers "sec-fetch-site" = "same-site" ∨
      headerGet r.headers "sec-fetch-site" = "same-origin") := by
    rintro (hx | hx | hx | hx)
    exacts [h1 hx, h2 hx, h3 hx, h4 hx]
  rw [allowed_def, if_neg hsite, if_neg h5]

/-- Witness for C1: the cross-site CORS POST is denied. -/
theorem allowed_deny_cross_site_non_navigate_get_witness :
    allowed reqCrossCors = false :=
  allowed_deny_cross_site_non_navigate_get reqCrossCors (by decide) (by decide)
    (by decide) (by decide) (by decide)

/-- C2: for every request whose sec-fetch-site header value is the empty
string, "none", "same-site" or "same-origin", the decision predicate
`allowed` returns allow (true), for all mode header values and all HTTP
methods. -/
theorem allowed_allow_trusted_site (r : Request)
    (h : headerGet r.headers "sec-fetch-site" = "" ∨
         headerGet r.headers "sec-fetch-site" = "none" ∨
         headerGet r.headers "sec-fetch-site" = "same-site" ∨
         headerGet r.headers "sec-fetch-site" = "same-origin") :
    allowed r = true := by
  rw [allowed_def, if_pos h]

/-- Witness for C2: the same-site websocket DELETE is allowed. -/
theorem allowed_allow_trusted_site_witness : allowed reqSameSite = true :=
  allowed_allow_trusted_site reqSameSite (by decide)

/-- C3: for every request whose sec-fetch-site header value is any string
other than "", "none", "same-site", "same-origin", if the sec-fetch-mode
header equals exactly "navigate" and the method equals exactly "GET", the
decision predicate `allowed` returns allow (true). -/
theorem allowed_allow_cross_site_navigate_get (r : Request)
    (h1 : headerGet r.headers "sec-fetch-site" ≠ "")
    (h2 : headerGet r.headers "sec-fetch-site" ≠ "none")
    (h3 : headerGet r.headers "sec-fetch-site" ≠ "same-site")
    (h4 : headerGet r.headers "sec-fetch-site" ≠ "same-origin")
    (hm : headerGet r.headers "sec-fetch-mode" = "navigate")
    (hg : r.method = "GET") :
    allowed r = true := by
  have hsite : ¬ (headerGet r.headers "sec-fetch-site" = "" ∨
      headerGet r.headers "sec-fetch-site" = "none" ∨
      headerGet r.headers "sec-fetch-site" = "same-site" ∨
      headerGet r.headers "sec-fetch-site" = "same-origin") := by
    rintro (hx | hx | hx | hx)
    exacts [h1 hx, h2 hx, h3 hx, h4 hx]
  rw [allowed_def, if_neg hsite, if_pos ⟨hm, hg⟩]

/-- Witness for C3: the cross-site GET navigation is allowed. -/
theorem allowed_allow_cross_site_navigate_get_witness :
    allowed reqCrossNavGet = true :=
  allowed_allow_cross_site_navigate_get reqCrossNavGet (by decide) (by decide)
    (by decide) (by decide) (by decide) (by decide)

/-- C4: the handler built by `ProtectHandler` writes status 403 and the
fixed newline-terminated denial message, performs no collaborator call (so
the wrapped handler is never invoked and none of its output reaches the
response, the result being the same for every wrapped handler), exactly when
the decision predicate denies the request. -/
theorem ProtectHandler_forbidden_iff_deny (h : Handler) (r : Request) (w : Response) :
    allowed r = false ↔
      ((ProtectHandler h r w).1.status = 403 ∧
       (ProtectHandler h r w).1.body = w.body ++ "Invalid resource access\n" ∧
       (ProtectHandler h r w).2 = [] ∧
       ∀ g : Handler, ProtectHandler g r w = ProtectHandler h r w) := by
  have hmsg : ("Invalid resource access" ++ "\n" : String) = "Invalid resource access\n" := rfl
  cases hA : allowed r with
  | false =>
    simp [ProtectHandler, hA, fprintln, writeHeader, statusForbidden, hmsg]
  | true =>
    simp [ProtectHandler, hA]

/-- C5: the handler built by `ProtectHandlerLogOnly` always returns exactly
the wrapped handler's response on the original request and response state,
always invokes the wrapped handler, and calls the logging collaborator
exactly once when the decision predicate denies and zero times when it
allows. -/
theorem ProtectHandlerLogOnly_transparent (h : Handler) (r : Request) (w : Response) :
    (ProtectHandlerLogOnly h r w).1 = h r w ∧
    Event.serveHTTP r ∈ (ProtectHandlerLogOnly h r w).2 ∧
    logCalls (ProtectHandlerLogOnly h r w).2 = (if allowed r = true then 0 else 1) := by
  cases hA : allowed r <;>
    simp [ProtectHandlerLogOnly, hA, logCalls, Event.isLog]

/-- C6: for every request with sec-fetch-site "cross-site", sec-fetch-mode
"navigate" and method "HEAD", the decision predicate `allowed` returns deny
(false): only the exact method "GET" qualifies for the navigate
exemption. -/
theorem allowed_deny_cross_site_navigate_head (r : Request)
    (hs : headerGet r.headers "sec-fetch-site" = "cross-site")
    (_hm : headerGet r.headers "sec-fetch-mode" = "navigate")
    (hmeth : r.method = "HEAD") :
    allowed r = false := by
  have hsite : ¬ (headerGet r.headers "sec-fetch-site" = "" ∨
      headerGet r.headers "sec-fetch-site" = "none" ∨
      headerGet r.headers "sec-fetch-site" = "same-site" ∨
      headerGet r.headers "sec-fetch-site" = "same-origin") := by
    rw [hs]; decide
  have hnav : ¬ (headerGet r.headers "sec-fetch-mode" = "navigate" ∧ r.method = "GET") := by
    rintro ⟨_, hg⟩
    rw [hmeth] at hg
    exact absurd hg (by decide)
  rw [allowed_def, if_neg hsite, if_neg hnav]

/-- Witness for C6: the cross-site HEAD navigation is denied. -/
theorem allowed_deny_cross_site_navigate_head_witness :
    allowed reqCrossNavHead = false :=
  allowed_deny_cross_site_navigate_head reqCrossNavHead (by decide) (by decide)
    (by decide)

/-- C7: the decision predicate `allowed` is a total boolean function of the
request; an absent header is read by `headerGet` as the empty string, and an
empty sec-fetch-site resolves to allow (fail-open). -/
theorem allowed_total_fail_open (r : Request) (key : String) :
    (allowed r = true ∨ allowed r = false) ∧
    (r.headers.find? (fun p => p.1 == canonicalMIMEHeaderKey key) = none →
      headerGet r.headers key = "") ∧
    (headerGet r.headers "sec-fetch-site" = "" → allowed r = true) := by
  refine ⟨?_, ?_, ?_⟩
  · cases allowed r <;> simp
  · intro hnone
    simp [headerGet, hnone]
  · intro he
    rw [allowed_def, if_pos (Or.inl he)]

/-- Witness for C7: the request with no Fetch Metadata headers is allowed,
via the fail-open branch of the theorem. -/
theorem allowed_total_fail_open_witness : allowed reqNoFetchMetadata = true :=
  (allowed_total_fail_open reqNoFetchMetadata "sec-fetch-site").2.2 (by decide)

/-- C8: the decision is a deterministic function of the triple
(site header, mode header, method) only: any two requests agreeing on those
three values get the same decision, whatever their other headers, url or
body. -/
theorem allowed_deterministic (r1 r2 : Request)
    (hs : headerGet r1.headers "sec-fetch-site" = headerGet r2.headers "sec-fetch-site")
    (hm : headerGet r1.headers "sec-fetch-mode" = headerGet r2.headers "sec-fetch-mode")
    (hmeth : r1.method = r2.method) :
    allowed r1 = allowed r2 := by
  rw [allowed_def, allowed_def, hs, hm, hmeth]

/-- Witness for C8: two requests differing in url, body and an extra header
but agreeing on the decision triple get the same decision. -/
theorem allowed_deterministic_witness :
    allowed reqCrossCors = allowed reqCrossCorsVariant :=
  allowed_deterministic reqCrossCors reqCrossCorsVariant (by decide) (by decide)
    (by decide)

/-- C9: for every request the decision predicate allows, the handler built
by `ProtectHandler` invokes the wrapped handler on the original request and
response state and returns exactly its response, performing no mutation of
its own. -/
theorem ProtectHandler_allow_passthrough (h : Handler) (r : Request) (w : Response)
    (ha : allowed r = true) :
    ProtectHandler h r w = (h r w, [Event.serveHTTP r]) := by
  simp [ProtectHandler, ha]

/-- Witness for C9: on the allowed same-origin POST, the enforcing wrapper
returns exactly the echo handler's response. -/
theorem ProtectHandler_allow_passthrough_witness :
    ProtectHandler echoHandler reqSameOrigin emptyResponse =
      (echoHandler reqSameOrigin emptyResponse, [Event.serveHTTP reqSameOrigin]) :=
  ProtectHandler_allow_passthrough echoHandler reqSameOrigin emptyResponse (by decide)

/-- C10: header value matching is case-sensitive: a sec-fetch-site value
that lowercases to "none", "same-site" or "same-origin" but is not equal to
any of them falls through the permissive first rule, and the decision is
exactly the cross-site branch's navigate-and-GET test. -/
theorem allowed_case_sensitive (r : Request)
    (hc : lowerString (headerGet r.headers "sec-fetch-site") = "none" ∨
          lowerString (headerGet r.headers "sec-fetch-site") = "same-site" ∨
          lowerString (headerGet r.headers "sec-fetch-site") = "same-origin")
    (h2 : headerGet r.headers "sec-fetch-site" ≠ "none")
    (h3 : headerGet r.headers "sec-fetch-site" ≠ "same-site")
    (h4 : headerGet r.headers "sec-fetch-site" ≠ "same-origin") :
    allowed r =
      if headerGet r.headers "sec-fetch-mode" = "navigate" ∧ r.method = "GET" then true
      else false := by
  have h1 : headerGet r.headers "sec-fetch-site" ≠ "" := by
    intro he
    rw [he] at hc
    rcases hc with hcx | hcx | hcx <;> exact absurd hcx (by decide)
  have hsite : ¬ (headerGet r.headers "sec-fetch-site" = "" ∨
      headerGet r.headers "sec-fetch-site" = "none" ∨
      headerGet r.headers "sec-fetch-site" = "same-site" ∨
      headerGet r.headers "sec-fetch-site" = "same-origin") := by
    rintro (hx | hx | hx | hx)
    exacts [h1 hx, h2 hx, h3 hx, h4 hx]
  rw [allowed_def, if_neg hsite]

/-- Witness for C10: sec-fetch-site "None" on a POST falls through to the
cross-site branch and is denied. -/
theorem allowed_case_sensitive_witness :
    allowed reqNoneCaps =
      if headerGet reqNoneCaps.headers "sec-fetch-mode" = "navigate" ∧
         reqNoneCaps.method = "GET" then true
      else false :=
  allowed_case_sensitive reqNoneCaps (Or.inl (by decide)) (by decide) (by decide)
    (by decide)

end SecFetch
